import Mathlib

/-!
Verification of packages/gatsby-source-filesystem/src/create-remote-file-node.js.

The module is embedded shallowly: the observable effects of each function
(request headers built, cache writes issued, filesystem operations performed,
values returned) are computed by pure Lean functions over explicit inputs, and
the behaviour of external collaborators (the valid-url predicate, the md5
digest, the URL filename/extension utilities, the content-signature sniffer,
the transport streams) is supplied as data.
-/

namespace CreateRemoteFileNode

/-- JavaScript truthiness of a possibly-undefined string: truthy exactly when
the value is present and nonempty (undefined, null and the empty string are
falsy). -/
def jsTruthy : Option String → Bool
  | none => false
  | some s => s != ""

/-- JavaScript template-literal rendering of a possibly-undefined string: an
undefined value interpolates as the literal text undefined. -/
def jsRender : Option String → String
  | none => "undefined"
  | some s => s

/-- Basic-auth credentials of the payload (typedef Auth, source lines 29-33);
either field may be absent. -/
structure Auth where
  htaccess_user : Option String
  htaccess_pass : Option String
deriving Repr, DecidableEq

/-- Auth request header construction (source lines 195-197): attached when the
auth object is present and at least one credential is truthy; each credential
is interpolated into a template literal, so a missing one renders as the text
undefined. -/
def authHeader : Option Auth → Option String
  | none => none
  | some a =>
      if jsTruthy a.htaccess_pass || jsTruthy a.htaccess_user then
        some (jsRender a.htaccess_user ++ ":" ++ jsRender a.htaccess_pass)
      else none

/-- Response headers as delivered by the transport and stored wholesale in the
persistent cache; only the etag field is read back later. -/
structure RespHeaders where
  etag : Option String
  rest : List (String × String)
deriving Repr, DecidableEq

/-- Conditional-request header construction (source lines 199-201): the cached
etag is sent as If-None-Match when cached headers exist and the etag is
truthy. -/
def ifNoneMatchHeader : Option RespHeaders → Option String
  | none => none
  | some ch => if jsTruthy ch.etag then ch.etag else none

/-- Headers attached to the outbound request by processRemoteNode. -/
structure ReqHeaders where
  auth : Option String
  ifNoneMatch : Option String
deriving Repr, DecidableEq

/-- cacheId (source line 12): the cache key namespacing of a url. -/
def cacheId (url : String) : String := "create-remote-file-node-" ++ url

/-- Filesystem paths are modelled as lists of path segments; the path.join of
a directory and one further name appends one segment. -/
abbrev FsPath := List String

/-- Join of a directory path and one further segment. -/
def pathJoin (dir : FsPath) (seg : String) : FsPath := dir ++ [seg]

/-- createFilePath (source lines 77-78): join of the directory and the
concatenation of filename and extension. -/
def createFilePath (directory : FsPath) (filename : String) (ext : String) : FsPath :=
  pathJoin directory (filename ++ ext)

/-- CACHE_DIR constant (source line 65). -/
def CACHE_DIR : String := ".cache"

/-- FS_PLUGIN_DIR constant (source line 66). -/
def FS_PLUGIN_DIR : String := "gatsby-source-filesystem"

/-- Plugin cache directory (source lines 181-185): the join of the program
directory with CACHE_DIR and FS_PLUGIN_DIR. -/
def pluginCacheDir (programDirectory : FsPath) : FsPath :=
  pathJoin (pathJoin programDirectory CACHE_DIR) FS_PLUGIN_DIR

/-- Transport response: status code plus headers. -/
structure Response where
  statusCode : Nat
  headers : RespHeaders
deriving Repr, DecidableEq

/-- Outcome of the two streams inside requestRemoteNode: the response event
fires and the piped write stream finishes, or the response stream errors
(transport or 400/500 response error), or the local write stream errors. -/
inductive StreamOutcome where
  | responseOk (resp : Response)
  | responseError (e : String)
  | writeError (e : String)
deriving Repr, DecidableEq

/-- Filesystem operations the module performs. -/
inductive FsOp where
  | removeSync (p : FsPath)
  | move (src dst : FsPath) (overwrite : Bool)
  | remove (p : FsPath)
deriving Repr, DecidableEq

/-- Observable result of requestRemoteNode: the filesystem operations its
handlers ran and the promise outcome. -/
structure RequestResult where
  fsOps : List FsOp
  outcome : Except String Response
deriving Repr

/-- requestRemoteNode (source lines 135-161): pipes the response stream into a
write stream on the temp filename; on a response-stream error it removes the
temp file synchronously and rejects with the error; on a write-stream error it
rejects with the error without removing the temp file; when the response event
fires and the write stream finishes it resolves with the response. -/
def requestRemoteNode (tmpFilename : FsPath) : StreamOutcome → RequestResult
  | .responseOk resp => ⟨[], .ok resp⟩
  | .responseError e => ⟨[FsOp.removeSync tmpFilename], .error e⟩
  | .writeError e => ⟨[], .error e⟩

/-- File node as far as this module shapes it: the final path it was built
from and the description set on it (source lines 241-242). -/
structure FileNode where
  path : FsPath
  description : String
deriving Repr, DecidableEq

/-- Inputs and collaborator responses determining one processRemoteNode run:
the task payload fields, the cached headers read from the persistent cache,
the values produced by external collaborators (the md5 digest of the url, the
URL-derived file name and extension from the utils module), the
content-signature sniff result for the temp file, and the behaviour of the
transport streams. -/
structure ProcessEnv where
  url : String
  programDirectory : FsPath
  auth : Option Auth
  ext : Option String
  cachedHeaders : Option RespHeaders
  digest : String
  name : String
  urlExt : String
  sniffResult : Option String
  streams : StreamOutcome
deriving Repr

/-- Extension in force before the fetch (source lines 206-208): the explicit
extension when truthy, else the URL-derived extension. -/
def extBeforeSniff (env : ProcessEnv) : String :=
  if jsTruthy env.ext then env.ext.getD "" else env.urlExt

/-- Temp filename (source line 210), built with the pre-fetch extension. -/
def tmpPath (env : ProcessEnv) : FsPath :=
  createFilePath (pluginCacheDir env.programDirectory)
    ("tmp-" ++ env.digest) (extBeforeSniff env)

/-- Extension after the content-signature fallback (source lines 218-225): the
sniff runs only when the extension is still the empty string, and applies only
when the sniffer recognises the content. -/
def resolvedExt (env : ProcessEnv) : String :=
  if extBeforeSniff env == "" then
    match env.sniffResult with
    | some t => "." ++ t
    | none => extBeforeSniff env
  else extBeforeSniff env

/-- Final content-addressed filename (source lines 227-231). -/
def finalPath (env : ProcessEnv) : FsPath :=
  createFilePath (pathJoin (pluginCacheDir env.programDirectory) env.digest)
    env.name (resolvedExt env)

/-- Observable result of processRemoteNode: the request headers it built, the
persistent-cache writes it issued, the filesystem operations performed, whether
the content sniff ran, the extension used for the final file, and the returned
node (null on the caught-error path). -/
structure ProcessResult where
  headersSent : ReqHeaders
  cacheWrites : List (String × RespHeaders)
  fsOps : List FsOp
  sniffPerformed : Bool
  extUsed : String
  ret : Option FileNode
deriving Repr

/-- processRemoteNode (source lines 171-254): builds the auth and
If-None-Match headers, fetches into the temp path, and on a resolved fetch
writes the response headers to the cache under cacheId url, resolves the
extension (sniffing only when it is still empty), then moves the temp file to
the final path with overwrite on a 200 status and removes the temp file
otherwise, returning the created node; a rejected fetch is caught and null is
returned. -/
def processRemoteNode (env : ProcessEnv) : ProcessResult :=
  let headers : ReqHeaders :=
    { auth := authHeader env.auth
      ifNoneMatch := ifNoneMatchHeader env.cachedHeaders }
  let req := requestRemoteNode (tmpPath env) env.streams
  match req.outcome with
  | .error _ =>
      { headersSent := headers, cacheWrites := [], fsOps := req.fsOps,
        sniffPerformed := false, extUsed := extBeforeSniff env, ret := none }
  | .ok response =>
      let materialize :=
        if response.statusCode == 200 then FsOp.move (tmpPath env) (finalPath env) true
        else FsOp.remove (tmpPath env)
      let node : FileNode :=
        { path := finalPath env
          description := "File \"" ++ env.url ++ "\"" }
      { headersSent := headers
        cacheWrites := [(cacheId env.url, response.headers)]
        fsOps := req.fsOps ++ [materialize]
        sniffPerformed := extBeforeSniff env == ""
        extUsed := resolvedExt env
        ret := some node }

/-- Value placed in the result slot of the queue callback: the file node, an
absent value (null or undefined), or the caught error object that pushToQueue
passes as a result. -/
inductive CbResult where
  | node (n : FileNode)
  | nullv
  | errObj (e : String)
deriving Repr, DecidableEq

/-- pushToQueue (source lines 112-119): awaits processRemoteNode and invokes
the queue callback with a null error slot and the node as result; an exception
escaping processRemoteNode is caught and passed in the result slot, again with
a null error slot. -/
def pushToQueue (outcome : Except String (Option FileNode)) : Option String × CbResult :=
  match outcome with
  | .ok (some n) => (none, CbResult.node n)
  | .ok none => (none, CbResult.nullv)
  | .error e => (none, CbResult.errObj e)

/-- What a caller awaiting the task observes: the promise resolves with a
value or rejects. -/
inductive Delivery where
  | resolved (v : CbResult)
  | rejected (e : String)
deriving Repr, DecidableEq

/-- pushTask promise wiring (source lines 269-279): the promise resolves with
the task result on the finish event and resolves with an absent value on the
failed event; it is never rejected. The queue fires failed exactly when the
callback error slot is non-null. -/
def pushTaskDeliver (cb : Option String × CbResult) : Delivery :=
  match cb.1 with
  | some _ => Delivery.resolved CbResult.nullv
  | none => Delivery.resolved cb.2

/-- Composition of one queued task from processRemoteNode through pushToQueue
to the pushTask promise: the processRemoteNode model returns normally (its try
block converts the fetch rejection into a null return), so the outcome fed to
the callback is its return value. -/
def runTask (env : ProcessEnv) : Delivery :=
  pushTaskDeliver (pushToQueue (Except.ok (processRemoteNode env).ret))

/-- Outcome of one call to the exported createRemoteFileNode: a thrown
configuration error, the stored promise from the processing cache, an
immediately resolved empty promise, or a brand-new promise for a newly pushed
task. -/
inductive SubmitOutcome where
  | configError
  | storedHandle (h : Nat)
  | emptyResolve
  | newHandle (h : Nat)
deriving Repr, DecidableEq

/-- Process-wide state of the front door: the processingCache mapping urls to
their stored promise (promises are modelled as handle numbers), the next fresh
handle, the urls pushed to the queue in order, and the handles whose promise
has already resolved. -/
structure FrontDoorState where
  processingCache : List (String × Nat)
  nextHandle : Nat
  queuedTasks : List String
  resolved : List Nat
deriving Repr, DecidableEq

/-- Initial front-door state: empty processingCache, nothing queued. -/
def FrontDoorState.init : FrontDoorState := ⟨[], 0, [], []⟩

/-- Payload of one call to the exported function, keeping only what the
validation code inspects: the url and whether each collaborator argument has
the required shape. -/
structure SubmitInput where
  url : String
  createNodeIdIsFunction : Bool
  createNodeIsFunction : Bool
  storeIsObject : Bool
  cacheIsObject : Bool
deriving Repr, DecidableEq

/-- createRemoteFileNode, the module export (source lines 296-344): validates
the collaborator arguments (throwing a configuration error otherwise), then
returns the stored promise when the processingCache holds one for the url;
otherwise a url that is falsy or fails the well-formed-web-URI test resolves
immediately to an empty promise; otherwise a task is pushed and its new
promise is stored in the processingCache. The isWebUri predicate comes from
the external valid-url package (it returns the url when valid and undefined
otherwise, so the source test isWebUri(url) === undefined is the predicate
being false). -/
def createRemoteFileNode (isWebUri : String → Bool) (s : FrontDoorState)
    (inp : SubmitInput) : SubmitOutcome × FrontDoorState :=
  if !inp.createNodeIdIsFunction then (SubmitOutcome.configError, s)
  else if !inp.createNodeIsFunction then (SubmitOutcome.configError, s)
  else if !inp.storeIsObject then (SubmitOutcome.configError, s)
  else if !inp.cacheIsObject then (SubmitOutcome.configError, s)
  else
    match s.processingCache.lookup inp.url with
    | some h => (SubmitOutcome.storedHandle h, s)
    | none =>
        if inp.url == "" || !(isWebUri inp.url) then (SubmitOutcome.emptyResolve, s)
        else
          (SubmitOutcome.newHandle s.nextHandle,
            { processingCache := (inp.url, s.nextHandle) :: s.processingCache
              nextHandle := s.nextHandle + 1
              queuedTasks := s.queuedTasks ++ [inp.url]
              resolved := s.resolved })

/-- Completion of the fetch behind handle h: the queue delivers the result and
the promise stored for that handle resolves. The source contains no code
removing a processingCache entry at any point, so completion only records the
handle as resolved and leaves the cache untouched. -/
def completeFetch (s : FrontDoorState) (h : Nat) : FrontDoorState :=
  { s with resolved := h :: s.resolved }

/-- Concurrency ceiling configured on the queue (source line 93). -/
def queueConcurrent : Nat := 200

/-- State of the bounded task queue: tasks waiting in admission order and
tasks currently running, identified by their url key. -/
structure QueueState where
  waiting : List String
  running : List String
deriving Repr, DecidableEq

/-- Initial queue state. -/
def QueueState.init : QueueState := ⟨[], []⟩

/-- Modelled from the spec: the execution semantics of the bounded task queue
live in the external better-queue dependency, of which only the configuration
(url as task id, keep-the-original merge, concurrent 200) appears in the
source (lines 90-94). Per the spec, a pushed task whose key matches an
admitted task merges into the original without a new entry, waiting tasks
start in admission order only while fewer than the configured number run, and
a finished task leaves the running set. -/
inductive QueueStep : QueueState → QueueState → Prop
  | push (u : String) (s : QueueState) (hw : u ∉ s.waiting) (hr : u ∉ s.running) :
      QueueStep s ⟨s.waiting ++ [u], s.running⟩
  | merge (u : String) (s : QueueState) (hm : u ∈ s.waiting ∨ u ∈ s.running) :
      QueueStep s s
  | start (u : String) (w r : List String) (hc : r.length < queueConcurrent) :
      QueueStep ⟨u :: w, r⟩ ⟨w, u :: r⟩
  | finish (u : String) (s : QueueState) (hu : u ∈ s.running) :
      QueueStep s ⟨s.waiting, s.running.erase u⟩

/-- States of the queue reachable from the initial state. -/
inductive QueueReachable : QueueState → Prop
  | init : QueueReachable QueueState.init
  | step (s t : QueueState) (hs : QueueReachable s) (hstep : QueueStep s t) :
      QueueReachable t

/-! Helper lemmas shared by the claim theorems. -/

/-- The temp filename and the final filename never coincide: the final path
has one more segment (the digest directory) than the temp path. -/
theorem tmpPath_ne_finalPath (env : ProcessEnv) : tmpPath env ≠ finalPath env := by
  intro h
  have hlen := congrArg List.length h
  simp only [tmpPath, finalPath, createFilePath, pathJoin, pluginCacheDir,
    List.length_append, List.length_cons, List.length_nil] at hlen
  omega

/-- The request headers built by processRemoteNode are the auth header and the
conditional header, on every stream outcome. -/
theorem processRemoteNode_headersSent (env : ProcessEnv) :
    (processRemoteNode env).headersSent
      = ⟨authHeader env.auth, ifNoneMatchHeader env.cachedHeaders⟩ := by
  cases h : env.streams <;> simp [processRemoteNode, requestRemoteNode, h]

/-- Erasing an element never lengthens a list. -/
theorem length_erase_le_self (u : String) (l : List String) :
    (l.erase u).length ≤ l.length :=
  (List.erase_sublist u l).length_le

/-! Claim theorems. -/

/-- C2: when the processingCache already holds an entry for the url and the
configuration checks pass, createRemoteFileNode returns exactly that stored
handle and leaves the state untouched, so no second task is enqueued and every
concurrent caller for the url receives the identical pending result. -/
theorem c2_dedup_returns_stored_handle (isWebUri : String → Bool)
    (s : FrontDoorState) (inp : SubmitInput) (h : Nat)
    (hcfg : inp.createNodeIdIsFunction = true ∧ inp.createNodeIsFunction = true ∧
      inp.storeIsObject = true ∧ inp.cacheIsObject = true)
    (hc : s.processingCache.lookup inp.url = some h) :
    createRemoteFileNode isWebUri s inp = (SubmitOutcome.storedHandle h, s) := by
  obtain ⟨h1, h2, h3, h4⟩ := hcfg
  simp [createRemoteFileNode, h1, h2, h3, h4, hc]

/-- Witness for C2 at a concrete state holding an entry for the url. -/
theorem c2_dedup_returns_stored_handle_witness :
    createRemoteFileNode (fun _ => true)
      ⟨[("http://a.example/x.png", 0)], 1, ["http://a.example/x.png"], []⟩
      ⟨"http://a.example/x.png", true, true, true, true⟩
      = (SubmitOutcome.storedHandle 0,
          ⟨[("http://a.example/x.png", 0)], 1, ["http://a.example/x.png"], []⟩) :=
  c2_dedup_returns_stored_handle (fun _ => true) _ _ 0
    ⟨rfl, rfl, rfl, rfl⟩ (by decide)

/-- C1 counterexample: submit a valid url, let its fetch complete, submit the
same url again; the second call returns the stored prior handle and the queue
receives no new task, because completion never removed the processingCache
entry — contradicting the claim that a post-completion submit enqueues a
brand-new fetch. -/
theorem c1_counterexample :
    (createRemoteFileNode (fun _ => true)
        (completeFetch
          (createRemoteFileNode (fun _ => true) FrontDoorState.init
            ⟨"http://a.example/x.png", true, true, true, true⟩).2 0)
        ⟨"http://a.example/x.png", true, true, true, true⟩).1
      = SubmitOutcome.storedHandle 0 ∧
    (createRemoteFileNode (fun _ => true)
        (completeFetch
          (createRemoteFileNode (fun _ => true) FrontDoorState.init
            ⟨"http://a.example/x.png", true, true, true, true⟩).2 0)
        ⟨"http://a.example/x.png", true, true, true, true⟩).2.queuedTasks
      = ["http://a.example/x.png"] := by
  constructor <;> decide

/-- C1 amended: the processingCache entry for a url is never deregistered;
completing the fetch behind any handle leaves the entry in place, and a
createRemoteFileNode call issued after completion returns the stored prior
handle with the state (in particular the queued-task list) unchanged, rather
than enqueuing a new fetch. -/
theorem c1_amended_entry_never_removed (isWebUri : String → Bool)
    (s : FrontDoorState) (inp : SubmitInput) (h hdone : Nat)
    (hcfg : inp.createNodeIdIsFunction = true ∧ inp.createNodeIsFunction = true ∧
      inp.storeIsObject = true ∧ inp.cacheIsObject = true)
    (hc : s.processingCache.lookup inp.url = some h) :
    (completeFetch s hdone).processingCache.lookup inp.url = some h ∧
    createRemoteFileNode isWebUri (completeFetch s hdone) inp
      = (SubmitOutcome.storedHandle h, completeFetch s hdone) := by
  obtain ⟨h1, h2, h3, h4⟩ := hcfg
  refine ⟨hc, ?_⟩
  simp [createRemoteFileNode, completeFetch, h1, h2, h3, h4, hc]

/-- Witness for the amended C1 at a concrete post-completion state. -/
theorem c1_amended_entry_never_removed_witness :
    createRemoteFileNode (fun _ => true)
      (completeFetch ⟨[("http://a.example/x.png", 0)], 1, ["http://a.example/x.png"], []⟩ 0)
      ⟨"http://a.example/x.png", true, true, true, true⟩
      = (SubmitOutcome.storedHandle 0,
          completeFetch ⟨[("http://a.example/x.png", 0)], 1, ["http://a.example/x.png"], []⟩ 0) :=
  (c1_amended_entry_never_removed (fun _ => true) _ _ 0 0
    ⟨rfl, rfl, rfl, rfl⟩ (by decide)).2

/-- C8: with a valid configuration and no stored entry for the url, a url that
is empty or fails the well-formed-web-URI test makes createRemoteFileNode
return the immediately resolved empty outcome with the state unchanged: no
exception, no task enqueued, no processingCache entry, and no filesystem work
initiated. -/
theorem c8_invalid_url_resolves_empty (isWebUri : String → Bool)
    (s : FrontDoorState) (inp : SubmitInput)
    (hcfg : inp.createNodeIdIsFunction = true ∧ inp.createNodeIsFunction = true ∧
      inp.storeIsObject = true ∧ inp.cacheIsObject = true)
    (hc : s.processingCache.lookup inp.url = none)
    (hurl : inp.url = "" ∨ isWebUri inp.url = false) :
    createRemoteFileNode isWebUri s inp = (SubmitOutcome.emptyResolve, s) := by
  obtain ⟨h1, h2, h3, h4⟩ := hcfg
  rcases hurl with hu | hu
  · rw [hu] at hc
    simp [createRemoteFileNode, h1, h2, h3, h4, hc, hu]
  · simp [createRemoteFileNode, h1, h2, h3, h4, hc, hu]

/-- Witness for C8 on the malformed url from the spec example. -/
theorem c8_invalid_url_resolves_empty_witness :
    createRemoteFileNode (fun u => u == "http://a.example/x.png")
      FrontDoorState.init ⟨"not a url", true, true, true, true⟩
      = (SubmitOutcome.emptyResolve, FrontDoorState.init) :=
  c8_invalid_url_resolves_empty (fun u => u == "http://a.example/x.png")
    FrontDoorState.init ⟨"not a url", true, true, true, true⟩
    ⟨rfl, rfl, rfl, rfl⟩ (by decide) (Or.inr (by decide))

/-- C9: in every queue state reachable from the initial state, at most the
configured number (200) of tasks run simultaneously; a waiting task starts
only while the running set is below the ceiling, so the ceiling is never
exceeded no matter how many urls are submitted. -/
theorem c9_concurrency_ceiling (s : QueueState) (hs : QueueReachable s) :
    s.running.length ≤ queueConcurrent := by
  induction hs with
  | init => simp [QueueState.init]
  | step s' t' hs' hstep ih =>
      cases hstep with
      | push u s' hw hr => exact ih
      | merge u s' hm => exact ih
      | start u w r hc => exact hc
      | finish u s' hu => exact le_trans (length_erase_le_self u _) ih

/-- Witness for C9 at a reachable state with one task running after a push and
a start step. -/
theorem c9_concurrency_ceiling_witness :
    (⟨[], ["http://a.example/x.png"]⟩ : QueueState).running.length ≤ queueConcurrent :=
  c9_concurrency_ceiling _
    (QueueReachable.step _ _
      (QueueReachable.step _ _ QueueReachable.init
        (QueueStep.push "http://a.example/x.png" _ (by simp [QueueState.init])
          (by simp [QueueState.init])))
      (QueueStep.start "http://a.example/x.png" [] []
        (by simp [queueConcurrent])))

/-- Concrete run used for C3: a conditional refetch answered with a 304 that
carries fresh headers, while older headers sit in the cache. -/
def env304 : ProcessEnv :=
  { url := "http://a.example/x.png"
    programDirectory := ["proj"]
    auth := none
    ext := some ".png"
    cachedHeaders := some ⟨some "etag-old", []⟩
    digest := "0a1b2c"
    name := "x"
    urlExt := ".png"
    sniffResult := none
    streams := StreamOutcome.responseOk ⟨304, ⟨some "etag-new", []⟩⟩ }

/-- C3 counterexample: on a 304 response the source still executes cache.set
with that response's headers, so the previously cached headers (etag-old) are
overwritten by the 304's headers (etag-new) — contradicting the claim that
only a 200 response writes fresh headers. -/
theorem c3_counterexample :
    env304.streams = StreamOutcome.responseOk ⟨304, ⟨some "etag-new", []⟩⟩ ∧
    env304.cachedHeaders = some ⟨some "etag-old", []⟩ ∧
    (processRemoteNode env304).cacheWrites
      = [(cacheId "http://a.example/x.png", ⟨some "etag-new", []⟩)] :=
  ⟨rfl, rfl, rfl⟩

/-- C3 amended: for every fetch that resolves with a response, the Header
Cache entry for the url is written with that response's headers regardless of
the status code; in particular a 304 (not-modified) response overwrites the
previously cached headers with its own. -/
theorem c3_amended_cache_written_on_every_response (env : ProcessEnv)
    (resp : Response) (hst : env.streams = StreamOutcome.responseOk resp) :
    (processRemoteNode env).cacheWrites = [(cacheId env.url, resp.headers)] := by
  simp [processRemoteNode, requestRemoteNode, hst]

/-- Witness for the amended C3 at the concrete 304 run. -/
theorem c3_amended_cache_written_on_every_response_witness :
    (processRemoteNode env304).cacheWrites
      = [(cacheId "http://a.example/x.png", ⟨some "etag-new", []⟩)] :=
  c3_amended_cache_written_on_every_response env304 ⟨304, ⟨some "etag-new", []⟩⟩ rfl

/-- C4 counterexample: a local write-stream failure rejects with the error but
performs no filesystem removal, leaving the partially-written temp file behind
— contradicting the claim that every stream-level failure deletes the temp
file before propagating. -/
theorem c4_counterexample :
    (requestRemoteNode ["proj", ".cache", "gatsby-source-filesystem", "tmp-0a1b2c.png"]
        (StreamOutcome.writeError "ENOSPC")).fsOps = [] ∧
    (requestRemoteNode ["proj", ".cache", "gatsby-source-filesystem", "tmp-0a1b2c.png"]
        (StreamOutcome.writeError "ENOSPC")).outcome = Except.error "ENOSPC" :=
  ⟨rfl, rfl⟩

/-- C4 amended: on a response-stream (network/HTTP) error requestRemoteNode
removes the partially-written temp file and propagates the error; on a local
write-stream error it propagates the error but does not remove the temp
file. -/
theorem c4_amended_temp_cleanup_on_response_error_only (tmp : FsPath) (e : String) :
    requestRemoteNode tmp (StreamOutcome.responseError e)
      = ⟨[FsOp.removeSync tmp], Except.error e⟩ ∧
    requestRemoteNode tmp (StreamOutcome.writeError e)
      = ⟨[], Except.error e⟩ :=
  ⟨rfl, rfl⟩

/-- C5: for a resolved fetch, a 200 status moves the temp file onto the final
content-addressed path with overwrite enabled (replacing any stale file
there), and a 304 status removes the temp file as the only filesystem
operation; the temp path is distinct from the final path, so the previously
materialized file at the final path is untouched on a 304. -/
theorem c5_materialization (env : ProcessEnv) (resp : Response)
    (hst : env.streams = StreamOutcome.responseOk resp) :
    (resp.statusCode = 200 →
      (processRemoteNode env).fsOps
        = [FsOp.move (tmpPath env) (finalPath env) true]) ∧
    (resp.statusCode = 304 →
      (processRemoteNode env).fsOps = [FsOp.remove (tmpPath env)] ∧
        tmpPath env ≠ finalPath env) := by
  constructor
  · intro h200
    simp [processRemoteNode, requestRemoteNode, hst, h200]
  · intro h304
    refine ⟨?_, tmpPath_ne_finalPath env⟩
    simp [processRemoteNode, requestRemoteNode, hst, h304]

/-- Witness for C5: the 200 branch at a concrete fresh download and the 304
branch at the concrete conditional refetch. -/
theorem c5_materialization_witness :
    (processRemoteNode
        { env304 with streams := StreamOutcome.responseOk ⟨200, ⟨some "etag-new", []⟩⟩ }).fsOps
      = [FsOp.move (tmpPath env304) (finalPath env304) true] ∧
    (processRemoteNode env304).fsOps = [FsOp.remove (tmpPath env304)] := by
  constructor
  · exact (c5_materialization
      { env304 with streams := StreamOutcome.responseOk ⟨200, ⟨some "etag-new", []⟩⟩ }
      ⟨200, ⟨some "etag-new", []⟩⟩ rfl).1 rfl
  · exact ((c5_materialization env304 ⟨304, ⟨some "etag-new", []⟩⟩ rfl).2 rfl).1

/-- C6: the extension of the materialized file follows the ordered fallback: a
truthy caller-supplied extension wins and no content sniff runs; otherwise the
URL-derived extension is used when nonempty, again without sniffing; the
content-signature sniff runs exactly when both are empty, and then the
recognised signature (or nothing) supplies the extension. In particular, with
an explicit .png extension the sniff result and URL extension are ignored. -/
theorem c6_extension_precedence (env : ProcessEnv) (resp : Response)
    (hst : env.streams = StreamOutcome.responseOk resp) :
    (jsTruthy env.ext = true →
      (processRemoteNode env).extUsed = env.ext.getD "" ∧
        (processRemoteNode env).sniffPerformed = false) ∧
    (jsTruthy env.ext = false → env.urlExt ≠ "" →
      (processRemoteNode env).extUsed = env.urlExt ∧
        (processRemoteNode env).sniffPerformed = false) ∧
    (jsTruthy env.ext = false → env.urlExt = "" →
      (processRemoteNode env).sniffPerformed = true ∧
        (processRemoteNode env).extUsed
          = (match env.sniffResult with
             | some t => "." ++ t
             | none => "")) := by
  refine ⟨?_, ?_, ?_⟩
  · intro ht
    cases hx : env.ext with
    | none => rw [hx] at ht; simp [jsTruthy] at ht
    | some s =>
        rw [hx] at ht
        have hs : s ≠ "" := by
          simpa [jsTruthy] using ht
        simp [processRemoteNode, requestRemoteNode, hst, resolvedExt,
          extBeforeSniff, jsTruthy, hx, hs]
  · intro ht hurl
    have hb : extBeforeSniff env = env.urlExt := by
      simp [extBeforeSniff, ht]
    simp [processRemoteNode, requestRemoteNode, hst, resolvedExt, hb, hurl]
  · intro ht hurl
    have hb : extBeforeSniff env = "" := by
      simp [extBeforeSniff, ht, hurl]
    cases hsr : env.sniffResult <;>
      simp [processRemoteNode, requestRemoteNode, hst, resolvedExt, hb, hsr]

/-- Witness for C6 at the scenario from the spec: explicit .png, url ending in
.jpg, content sniffing as GIF — the materialized file uses .png and no sniff
runs. -/
theorem c6_extension_precedence_witness :
    (processRemoteNode
        { url := "http://a.example/pic.jpg"
          programDirectory := ["proj"]
          auth := none
          ext := some ".png"
          cachedHeaders := none
          digest := "0a1b2c"
          name := "pic"
          urlExt := ".jpg"
          sniffResult := some "gif"
          streams := StreamOutcome.responseOk ⟨200, ⟨none, []⟩⟩ }).extUsed = ".png" ∧
    (processRemoteNode
        { url := "http://a.example/pic.jpg"
          programDirectory := ["proj"]
          auth := none
          ext := some ".png"
          cachedHeaders := none
          digest := "0a1b2c"
          name := "pic"
          urlExt := ".jpg"
          sniffResult := some "gif"
          streams := StreamOutcome.responseOk ⟨200, ⟨none, []⟩⟩ }).sniffPerformed = false :=
  (c6_extension_precedence _ ⟨200, ⟨none, []⟩⟩ rfl).1 (by decide)

/-- C7: when the fetch rejects at the stream level (response-stream or
write-stream error), processRemoteNode catches it and returns a null node, the
queue callback is invoked with a null error slot, and the promise handed to
every caller awaiting the task resolves with an absent value — it is never
rejected, and the callback never signals a queue-level task failure for any
outcome. -/
theorem c7_failure_delivered_as_absent (env : ProcessEnv) (e : String)
    (hst : env.streams = StreamOutcome.responseError e ∨
      env.streams = StreamOutcome.writeError e) :
    (processRemoteNode env).ret = none ∧
    runTask env = Delivery.resolved CbResult.nullv ∧
    (∀ o : Except String (Option FileNode), (pushToQueue o).1 = none) := by
  have hret : (processRemoteNode env).ret = none := by
    rcases hst with h | h <;> simp [processRemoteNode, requestRemoteNode, h]
  refine ⟨hret, ?_, ?_⟩
  · simp [runTask, hret, pushToQueue, pushTaskDeliver]
  · intro o
    cases o with
    | ok v => cases v <;> rfl
    | error e' => rfl

/-- Witness for C7 at a concrete timed-out fetch. -/
theorem c7_failure_delivered_as_absent_witness :
    (processRemoteNode
        { env304 with streams := StreamOutcome.responseError "ETIMEDOUT" }).ret = none ∧
    runTask { env304 with streams := StreamOutcome.responseError "ETIMEDOUT" }
      = Delivery.resolved CbResult.nullv := by
  refine ⟨?_, ?_⟩
  · exact (c7_failure_delivered_as_absent
      { env304 with streams := StreamOutcome.responseError "ETIMEDOUT" }
      "ETIMEDOUT" (Or.inl rfl)).1
  · exact (c7_failure_delivered_as_absent
      { env304 with streams := StreamOutcome.responseError "ETIMEDOUT" }
      "ETIMEDOUT" (Or.inl rfl)).2.1

/-- C10: with an auth object present, supplying only a truthy user credential
still attaches the auth header, rendering the missing password as the literal
text undefined; symmetrically for a password without a user; and the header is
omitted exactly when both credentials are absent or empty. -/
theorem c10_partial_credentials_auth_header (env : ProcessEnv) (a : Auth)
    (ha : env.auth = some a) :
    (jsTruthy a.htaccess_user = true → a.htaccess_pass = none →
      (processRemoteNode env).headersSent.auth
        = some (jsRender a.htaccess_user ++ ":" ++ "undefined")) ∧
    (jsTruthy a.htaccess_pass = true → a.htaccess_user = none →
      (processRemoteNode env).headersSent.auth
        = some ("undefined" ++ ":" ++ jsRender a.htaccess_pass)) ∧
    ((processRemoteNode env).headersSent.auth = none ↔
      jsTruthy a.htaccess_user = false ∧ jsTruthy a.htaccess_pass = false) := by
  rw [processRemoteNode_headersSent, ha]
  refine ⟨?_, ?_, ?_⟩
  · intro ht hp
    have hpf : jsTruthy a.htaccess_pass = false := by rw [hp]; rfl
    simp [authHeader, hpf, ht, jsRender, hp]
  · intro ht hu
    have huf : jsTruthy a.htaccess_user = false := by rw [hu]; rfl
    simp [authHeader, huf, ht, jsRender, hu]
  · cases hu : jsTruthy a.htaccess_user <;> cases hp : jsTruthy a.htaccess_pass <;>
      simp [authHeader, hu, hp]

/-- Witness for C10: a request carrying only the user credential sends
user:undefined as the auth header. -/
theorem c10_partial_credentials_auth_header_witness :
    (processRemoteNode
        { env304 with auth := some ⟨some "user", none⟩ }).headersSent.auth
      = some ("user" ++ ":" ++ "undefined") :=
  (c10_partial_credentials_auth_header
    { env304 with auth := some ⟨some "user", none⟩ }
    ⟨some "user", none⟩ rfl).1 (by decide) rfl

end CreateRemoteFileNode
